import Mathlib

/-
Verification of the vulkan_bootstrap frame-synchronization and resource-lifecycle
engine, as a shallow embedding of the Rust sources (src/).  External driver calls
(the ash / Vulkan API) are modelled by explicit result oracles: each embedded
operation takes the raw result code the driver would return and mirrors the
source's control flow on it.  Opaque driver handles are modelled as natural
numbers handed out by a deterministic fresh-handle scheme.
-/

namespace VulkanBootstrap

/-- Vulkan result codes (`ash::vk::Result`) relevant to the embedded operations.
Only `SUCCESS` is a success code for plain device calls; the swapchain entry
points additionally treat `SUBOPTIMAL_KHR` as non-error (see `ashAcquireNextImage`). -/
inductive VkResult where
  | success
  | suboptimalKhr
  | timeout
  | notReady
  | errorOutOfDateKhr
  | errorDeviceLost
  | errorSurfaceLostKhr
  | errorInitializationFailed
  deriving DecidableEq, Repr

/-- The message ash's `err.to_string()` produces for each result code (used as the
payload of the repo's error variants; the exact text is irrelevant to the claims). -/
def VkResult.toMessage : VkResult → String
  | .success => "SUCCESS"
  | .suboptimalKhr => "SUBOPTIMAL_KHR"
  | .timeout => "TIMEOUT"
  | .notReady => "NOT_READY"
  | .errorOutOfDateKhr => "ERROR_OUT_OF_DATE_KHR"
  | .errorDeviceLost => "ERROR_DEVICE_LOST"
  | .errorSurfaceLostKhr => "ERROR_SURFACE_LOST_KHR"
  | .errorInitializationFailed => "ERROR_INITIALIZATION_FAILED"

/-- `VulkanError` from src/src/errors.rs (all fifteen variants, each carrying a message). -/
inductive VulkanError where
  | DebugCreationError (msg : String)
  | DepthResourcesCreationError (msg : String)
  | DeviceError (msg : String)
  | ImageCreationError (msg : String)
  | InstanceCreationError (msg : String)
  | InstanceError (msg : String)
  | PipelineError (msg : String)
  | PhysicalDeviceCreationError (msg : String)
  | RenderPassCreationError (msg : String)
  | ShaderCreationError (msg : String)
  | SurfaceError (msg : String)
  | SwapchainCreationError (msg : String)
  | SwapchainError (msg : String)
  | TextureCreationError (msg : String)
  | VertexBufferCreationError (msg : String)
  deriving DecidableEq, Repr

/-- Pipeline stage flags appearing in the embedded code
(`vk::PipelineStageFlags`); only `COLOR_ATTACHMENT_OUTPUT` is used by the ring. -/
inductive PipelineStage where
  | topOfPipe
  | colorAttachmentOutput
  | transfer
  | bottomOfPipe
  deriving DecidableEq, Repr

/-- `vk::SubmitInfo` as assembled by `CommandBuffers::queue_submit`
(src/src/command_buffers.rs, lines 106-115). -/
structure SubmitInfo where
  wait_semaphores : List Nat
  wait_dst_stage_mask : List PipelineStage
  command_buffers : List Nat
  signal_semaphores : List Nat
  deriving DecidableEq, Repr

/-- Surface formats (`vk::Format`); only `UNDEFINED` and `B8G8R8A8_UNORM` are
inspected by the source, every other format is carried opaquely. -/
inductive Format where
  | undefined
  | b8g8r8a8Unorm
  | other (code : Nat)
  deriving DecidableEq, Repr

/-- `vk::ColorSpaceKHR`; only `SRGB_NONLINEAR` is inspected by the source. -/
inductive ColorSpace where
  | srgbNonlinear
  | other (code : Nat)
  deriving DecidableEq, Repr

/-- `vk::PresentModeKHR`. -/
inductive PresentMode where
  | immediate
  | mailbox
  | fifo
  | fifoRelaxed
  deriving DecidableEq, Repr

/-- `vk::SurfaceFormatKHR`: a (format, color space) pair. -/
structure SurfaceFormat where
  format : Format
  color_space : ColorSpace
  deriving DecidableEq, Repr

/-- `vk::Extent2D`. -/
structure Extent2D where
  width : Nat
  height : Nat
  deriving DecidableEq, Repr

/-- `vk::SharingMode`. -/
inductive SharingMode where
  | exclusive
  | concurrent
  deriving DecidableEq, Repr

/-- `vk::SurfaceCapabilitiesKHR` (the only field the source reads is `current_extent`). -/
structure SurfaceCapabilities where
  current_extent : Extent2D
  deriving DecidableEq, Repr

/-- Numeric value of `u32::MAX`, the sentinel the surface reports for an
indeterminate current extent (src/src/swapchain.rs, line 274). -/
def U32_MAX : Nat := 4294967295

/-- `vk::ImageUsageFlags::COLOR_ATTACHMENT` bit. -/
def IMAGE_USAGE_COLOR_ATTACHMENT : Nat := 16

/-- `vk::ImageUsageFlags::STORAGE` bit. -/
def IMAGE_USAGE_STORAGE : Nat := 8

/-- `vk::SurfaceTransformFlagsKHR::IDENTITY` bit. -/
def SURFACE_TRANSFORM_IDENTITY : Nat := 1

/-- `vk::CompositeAlphaFlagsKHR::OPAQUE` bit. -/
def COMPOSITE_ALPHA_OPAQUE : Nat := 1

/-- `vk::SwapchainCreateInfoKHR` as assembled by `SwapchainBuilder::build`
(src/src/swapchain.rs, lines 141-155).  `old_swapchain = 0` encodes
`vk::SwapchainKHR::null()`. -/
structure SwapchainCreateInfo where
  surface : Nat
  min_image_count : Nat
  image_format : Format
  image_color_space : ColorSpace
  image_extent : Extent2D
  image_array_layers : Nat
  image_usage : Nat
  pre_transform : Nat
  composite_alpha : Nat
  present_mode : PresentMode
  clipped : Bool
  image_sharing_mode : SharingMode
  old_swapchain : Nat
  deriving DecidableEq, Repr

/-- Observable driver interactions performed by the embedded operations, in
program order.  Handles are the numeric model of the corresponding Vulkan objects. -/
inductive Event where
  | createCommandPool (queue_family : Nat)
  | allocateCommandBuffers (count : Nat) (buffers : List Nat)
  | createFence (signaled : Bool) (fence : Nat)
  | createSemaphore (semaphore : Nat)
  | waitFences (fences : List Nat) (waitAll : Bool) (timeoutNs : Nat)
  | resetFences (fences : List Nat)
  | beginCommandBuffer (buffer : Nat)
  | endCommandBuffer (buffer : Nat)
  | queueSubmit (info : SubmitInfo) (fence : Nat)
  | acquireNextImage (semaphore : Nat)
  | queuePresent (wait_semaphores : List Nat) (image_indices : List Nat)
  | createSwapchain (info : SwapchainCreateInfo)
  | destroySwapchain (handle : Nat)
  | getSwapchainImages (handle : Nat)
  | createImageView (image : Nat)
  | destroyImageView (handle : Nat)
  | getSurfaceFormats
  | getSurfacePresentModes
  | getSurfaceCapabilities
  deriving DecidableEq, Repr

/-! ## src/src/device.rs -/

/-- `FENCE_TIMEOUT` (src/src/device.rs, line 15): the fixed wait bound in
nanoseconds handed to `vkWaitForFences`. -/
def FENCE_TIMEOUT : Nat := 100

/-- ash `DeviceV1_0::wait_for_fences`: the raw driver result is an error for every
code other than `SUCCESS` (in particular `TIMEOUT` is an error at this layer). -/
def ashWaitForFences (raw : VkResult) : Except VkResult Unit :=
  if raw = VkResult.success then Except.ok () else Except.error raw

/-- `VulkanDevice::wait_for_fences` (src/src/device.rs, lines 354-357): a single
`wait_for_fences` driver call with `wait_all = true` and timeout `FENCE_TIMEOUT`;
any ash-level error is mapped to `DeviceError`.  There is no retry: the returned
trace is that one call. -/
def VulkanDevice.wait_for_fences (fences : List Nat) (raw : VkResult) :
    List Event × Except VulkanError Unit :=
  ([Event.waitFences fences true FENCE_TIMEOUT],
   match ashWaitForFences raw with
   | Except.ok _ => Except.ok ()
   | Except.error e => Except.error (VulkanError.DeviceError e.toMessage))

/-- `VulkanDevice::reset_fences` (src/src/device.rs, lines 359-362). -/
def VulkanDevice.reset_fences (fences : List Nat) (raw : VkResult) :
    List Event × Except VulkanError Unit :=
  ([Event.resetFences fences],
   if raw = VkResult.success then Except.ok ()
   else Except.error (VulkanError.DeviceError raw.toMessage))

/-- `VulkanDevice::begin_command_buffer` (src/src/device.rs, lines 317-324). -/
def VulkanDevice.begin_command_buffer (buffer : Nat) (raw : VkResult) :
    List Event × Except VulkanError Unit :=
  ([Event.beginCommandBuffer buffer],
   if raw = VkResult.success then Except.ok ()
   else Except.error (VulkanError.DeviceError raw.toMessage))

/-- `VulkanDevice::end_command_buffer` (src/src/device.rs, lines 326-329). -/
def VulkanDevice.end_command_buffer (buffer : Nat) (raw : VkResult) :
    List Event × Except VulkanError Unit :=
  ([Event.endCommandBuffer buffer],
   if raw = VkResult.success then Except.ok ()
   else Except.error (VulkanError.DeviceError raw.toMessage))

/-- `VulkanDevice::queue_submit` (src/src/device.rs, lines 47-56). -/
def VulkanDevice.queue_submit (info : SubmitInfo) (fence : Nat) (raw : VkResult) :
    List Event × Except VulkanError Unit :=
  ([Event.queueSubmit info fence],
   if raw = VkResult.success then Except.ok ()
   else Except.error (VulkanError.DeviceError raw.toMessage))

/-! ## src/src/command_buffers.rs -/

/-- `CommandBuffers` (src/src/command_buffers.rs, lines 9-16): the per-slot ring of
command buffers, fences and semaphore pairs.  Rust indexing (`self.fences[i]`)
panics out of bounds; the embedding uses `getD` and every theorem quantifies over
indices below the ring size, where the two agree. -/
structure CommandBuffers where
  command_buffers : List Nat
  fences : List Nat
  present_complete_semaphores : List Nat
  render_complete_semaphores : List Nat
  deriving DecidableEq, Repr

/-- Fresh-handle scheme for the ring: slot `i` receives command buffer `100 + i`,
fence `200 + i`, present-complete semaphore `300 + i`, render-complete
semaphore `400 + i`. -/
def cbHandle (i : Nat) : Nat := 100 + i

/-- Fence handle of ring slot `i`. -/
def fenceHandle (i : Nat) : Nat := 200 + i

/-- Present-complete (acquire) semaphore handle of ring slot `i`. -/
def presentSemHandle (i : Nat) : Nat := 300 + i

/-- Render-complete semaphore handle of ring slot `i`. -/
def renderSemHandle (i : Nat) : Nat := 400 + i

/-- `CommandBuffersBuilder::build` (src/src/command_buffers.rs, lines 151-189):
creates the command pool, allocates `frames_count` primary command buffers, and
for every slot creates one fence with `FenceCreateFlags::SIGNALED` plus the two
semaphores.  Returns the driver-call trace together with the built ring. -/
def CommandBuffersBuilder.build (frames_count : Nat) : List Event × CommandBuffers :=
  let command_buffers := (List.range frames_count).map cbHandle
  let fences := (List.range frames_count).map fenceHandle
  let present_complete_semaphores := (List.range frames_count).map presentSemHandle
  let render_complete_semaphores := (List.range frames_count).map renderSemHandle
  let perSlot := (List.range frames_count).flatMap (fun i =>
    [Event.createFence true (fenceHandle i),
     Event.createSemaphore (presentSemHandle i),
     Event.createSemaphore (renderSemHandle i)])
  (Event.createCommandPool 0 ::
     Event.allocateCommandBuffers frames_count command_buffers :: perSlot,
   { command_buffers := command_buffers
     fences := fences
     present_complete_semaphores := present_complete_semaphores
     render_complete_semaphores := render_complete_semaphores })

/-- `CommandBuffers::get` (src/src/command_buffers.rs, lines 36-38). -/
def CommandBuffers.get (cbs : CommandBuffers) (index : Nat) : Nat :=
  cbs.command_buffers.getD index 0

/-- `CommandBuffers::get_present_complete_semaphore` (src/src/command_buffers.rs, lines 40-42). -/
def CommandBuffers.get_present_complete_semaphore (cbs : CommandBuffers) (index : Nat) : Nat :=
  cbs.present_complete_semaphores.getD index 0

/-- `CommandBuffers::get_render_complete_semaphore` (src/src/command_buffers.rs, lines 44-46). -/
def CommandBuffers.get_render_complete_semaphore (cbs : CommandBuffers) (index : Nat) : Nat :=
  cbs.render_complete_semaphores.getD index 0

/-- `CommandBuffers::wait_for_fence` (src/src/command_buffers.rs, lines 85-87):
waits on exactly the slot's own fence. -/
def CommandBuffers.wait_for_fence (cbs : CommandBuffers) (frame_index : Nat) (raw : VkResult) :
    List Event × Except VulkanError Unit :=
  VulkanDevice.wait_for_fences [cbs.fences.getD frame_index 0] raw

/-- `CommandBuffers::reset_fence` (src/src/command_buffers.rs, lines 89-91). -/
def CommandBuffers.reset_fence (cbs : CommandBuffers) (frame_index : Nat) (raw : VkResult) :
    List Event × Except VulkanError Unit :=
  VulkanDevice.reset_fences [cbs.fences.getD frame_index 0] raw

/-- `CommandBuffers::begin_command_buffer` (src/src/command_buffers.rs, lines 93-99). -/
def CommandBuffers.begin_command_buffer (cbs : CommandBuffers) (frame_index : Nat)
    (raw : VkResult) : List Event × Except VulkanError Unit :=
  VulkanDevice.begin_command_buffer (cbs.command_buffers.getD frame_index 0) raw

/-- `CommandBuffers::end_command_buffer` (src/src/command_buffers.rs, lines 101-104). -/
def CommandBuffers.end_command_buffer (cbs : CommandBuffers) (frame_index : Nat)
    (raw : VkResult) : List Event × Except VulkanError Unit :=
  VulkanDevice.end_command_buffer (cbs.command_buffers.getD frame_index 0) raw

/-- `CommandBuffers::queue_submit` (src/src/command_buffers.rs, lines 106-115):
the submission waits on the slot's present-complete semaphore at
`COLOR_ATTACHMENT_OUTPUT`, submits the slot's command buffer, signals the slot's
render-complete semaphore, and passes the slot's fence. -/
def CommandBuffers.queue_submit (cbs : CommandBuffers) (frame_index : Nat) (raw : VkResult) :
    List Event × Except VulkanError Unit :=
  let info : SubmitInfo :=
    { wait_semaphores := [cbs.present_complete_semaphores.getD frame_index 0]
      wait_dst_stage_mask := [PipelineStage.colorAttachmentOutput]
      command_buffers := [cbs.command_buffers.getD frame_index 0]
      signal_semaphores := [cbs.render_complete_semaphores.getD frame_index 0] }
  VulkanDevice.queue_submit info (cbs.fences.getD frame_index 0) raw

/-- Fences recorded as created in the signaled state by a driver-call trace. -/
def signaledFencesOfTrace (trace : List Event) : List Nat :=
  trace.flatMap (fun e =>
    match e with
    | Event.createFence true f => [f]
    | _ => [])

/-- A `vkWaitForFences` call blocks precisely when some fence in the wait list is
not yet signaled; on an all-signaled list it returns immediately. -/
def waitWouldBlock (signaled : List Nat) (fences : List Nat) : Bool :=
  !fences.all (fun f => signaled.contains f)

/-! ## src/src/extensions.rs and src/src/physical_device.rs -/

/-- `DeviceExtensions` (src/src/extensions.rs): the recognized device extensions;
unknown names enumerate as `notImplemented`.  Equality is derived (`PartialEq`). -/
inductive DeviceExtensions where
  | extDescriptorIndexing
  | khrSwapchain
  | nvRayTracing
  | notImplemented
  deriving DecidableEq, Repr

/-- `vk::QueueFlags::GRAPHICS` bit. -/
def QUEUE_GRAPHICS : Nat := 1

/-- `vk::QueueFamilyProperties` (the two fields the source reads). -/
structure QueueFamilyProperties where
  queue_count : Nat
  queue_flags : Nat
  deriving DecidableEq, Repr

/-- Default queue-family value used only to give `getD` a second argument; every
theorem quantifies over in-range indices, where the default is irrelevant. -/
def dfltQueueFamily : QueueFamilyProperties := { queue_count := 0, queue_flags := 0 }

/-- Everything the capability selector queries about one enumerated physical
device: its extension enumeration, its `sampler_anisotropy` feature bit, the
surface's reported formats / present modes for it, its queue-family table, and
the per-family surface-presentation-support answers. -/
structure PhysicalDeviceData where
  available_extensions : List DeviceExtensions
  sampler_anisotropy : Bool
  formats : List SurfaceFormat
  present_modes : List PresentMode
  queue_families : List QueueFamilyProperties
  surface_support : List Bool
  deriving DecidableEq, Repr

/-- Default device value for `getD`; irrelevant under the in-range hypotheses. -/
def dfltDevice : PhysicalDeviceData :=
  { available_extensions := [], sampler_anisotropy := false, formats := []
    present_modes := [], queue_families := [], surface_support := [] }

/-- `QueueFamilyIndices` (src/src/physical_device.rs, lines 9-12). -/
structure QueueFamilyIndices where
  graphics_family : Option Nat
  present_family : Option Nat
  deriving DecidableEq, Repr

/-- `QueueFamilyIndices::is_complete` (src/src/physical_device.rs, lines 15-17). -/
def QueueFamilyIndices.is_complete (q : QueueFamilyIndices) : Bool :=
  q.graphics_family.isSome && q.present_family.isSome

/-- The per-family test of `find_queue_families` (src/src/physical_device.rs,
lines 143-145): `queue_count > 0` and the `GRAPHICS` flag set
(`queue_flags.contains(GRAPHICS)` is `flags & GRAPHICS == GRAPHICS`). -/
def queueFamilyGraphics (qf : QueueFamilyProperties) : Bool :=
  qf.queue_count > 0 && (qf.queue_flags &&& QUEUE_GRAPHICS == QUEUE_GRAPHICS)

/-- The loop body of `PhysicalDeviceBuilder::find_queue_families`
(src/src/physical_device.rs, lines 134-165): walk the queue families in index
order, record a family with `queue_count > 0` and the `GRAPHICS` flag as the
graphics family, record a family whose surface-support query answers true as the
present family, and break as soon as both are recorded. -/
def findQueueFamiliesGo (d : PhysicalDeviceData) :
    List QueueFamilyProperties → Nat → Option Nat → Option Nat → QueueFamilyIndices
  | [], _, g, p => { graphics_family := g, present_family := p }
  | qf :: rest, index, g, p =>
    let g' := if queueFamilyGraphics qf then some index else g
    let p' := if d.surface_support.getD index false then some index else p
    if g'.isSome && p'.isSome then { graphics_family := g', present_family := p' }
    else findQueueFamiliesGo d rest (index + 1) g' p'

/-- `PhysicalDeviceBuilder::find_queue_families` (src/src/physical_device.rs, lines 134-165). -/
def PhysicalDeviceBuilder.find_queue_families (d : PhysicalDeviceData) : QueueFamilyIndices :=
  findQueueFamiliesGo d d.queue_families 0 none none

/-- `PhysicalDeviceBuilder::check_device_extensions_support`
(src/src/physical_device.rs, lines 167-184): returns false as soon as one
required extension is absent from the device's enumeration, true otherwise. -/
def check_device_extensions_support (required : List DeviceExtensions)
    (d : PhysicalDeviceData) : Bool :=
  required.all (fun e => d.available_extensions.contains e)

/-- `PhysicalDeviceBuilder::is_device_suitable` (src/src/physical_device.rs,
lines 117-132): required extensions present, at least one surface format, at
least one present mode, and — only when requested — the `sampler_anisotropy`
feature.  (The surface-support query's `.unwrap()` is modelled as the query
succeeding, i.e. the data is available in `PhysicalDeviceData`.) -/
def is_device_suitable (required : List DeviceExtensions)
    (sampler_anisotropy_requested : Bool) (d : PhysicalDeviceData) : Bool :=
  let sa := if sampler_anisotropy_requested then d.sampler_anisotropy else true
  check_device_extensions_support required d
    && !d.formats.isEmpty && !d.present_modes.isEmpty && sa

/-- The device predicate the selector's `find_map` closure tests
(src/src/physical_device.rs, lines 95-102): suitable, and with complete queue
family indices. -/
def deviceOk (required : List DeviceExtensions) (sampler_anisotropy_requested : Bool)
    (d : PhysicalDeviceData) : Bool :=
  is_device_suitable required sampler_anisotropy_requested d
    && (PhysicalDeviceBuilder.find_queue_families d).is_complete

/-- The `find_map` over enumerated devices (src/src/physical_device.rs,
lines 93-102): first device passing `deviceOk` wins, together with its indices. -/
def findSuitable (required : List DeviceExtensions) (sampler_anisotropy_requested : Bool) :
    List PhysicalDeviceData → Option (PhysicalDeviceData × QueueFamilyIndices)
  | [] => none
  | d :: rest =>
    let qfi := PhysicalDeviceBuilder.find_queue_families d
    if is_device_suitable required sampler_anisotropy_requested d && qfi.is_complete
    then some (d, qfi)
    else findSuitable required sampler_anisotropy_requested rest

/-- `PhysicalDeviceBuilder::build` (src/src/physical_device.rs, lines 90-115):
`find_map` over the enumerated devices, failing with
`PhysicalDeviceCreationError("Cannot find suitable physical device")` when none
qualifies.  The Rust `unwrap()`s on the two family indices are guarded by
`is_complete`; `getD 0` models them at the call sites where they are `some`. -/
def PhysicalDeviceBuilder.build (required : List DeviceExtensions)
    (sampler_anisotropy_requested : Bool) (devices : List PhysicalDeviceData) :
    Except VulkanError (PhysicalDeviceData × Nat × Nat) :=
  match findSuitable required sampler_anisotropy_requested devices with
  | some (d, qfi) =>
    Except.ok (d, qfi.graphics_family.getD 0, qfi.present_family.getD 0)
  | none =>
    Except.error (VulkanError.PhysicalDeviceCreationError "Cannot find suitable physical device")

/-- `PhysicalDevice` (src/src/physical_device.rs, lines 20-25): the selected
device's graphics and present queue family indices. -/
structure PhysicalDevice where
  graphics_queue_family : Nat
  present_queue_family : Nat
  deriving DecidableEq, Repr

/-- The loop of `PhysicalDevice::find_memory_type` (src/src/physical_device.rs,
lines 49-57): `flagsList` is the suffix of property-flag entries still to scan
and `i` the absolute index of its head. -/
def findMemoryTypeGo (type_filter properties : Nat) : List Nat → Nat → Option Nat
  | [], _ => none
  | flags :: rest, i =>
    if type_filter &&& (1 <<< i) != 0 && (flags &&& properties == properties)
    then some i
    else findMemoryTypeGo type_filter properties rest (i + 1)

/-- `PhysicalDevice::find_memory_type` (src/src/physical_device.rs, lines 40-60):
first index `i` below the device's `memory_type_count` whose bit is set in
`type_filter` and whose property flags contain `properties`.  The memory-type
table the instance reports (property flags per type, in index order) is the
`memory_types` argument. -/
def PhysicalDevice.find_memory_type (memory_types : List Nat)
    (type_filter properties : Nat) : Option Nat :=
  findMemoryTypeGo type_filter properties memory_types 0

/-- The fit test of the memory-type loop at absolute index `i`. -/
def memTypeFits (memory_types : List Nat) (type_filter properties i : Nat) : Prop :=
  type_filter &&& (1 <<< i) ≠ 0 ∧ (memory_types.getD i 0) &&& properties = properties

instance (memory_types : List Nat) (type_filter properties i : Nat) :
    Decidable (memTypeFits memory_types type_filter properties i) := by
  unfold memTypeFits; infer_instance

/-! ## src/src/swapchain.rs -/

/-- `Swapchain` (src/src/swapchain.rs, lines 11-19).  `loader` models the
`Option<khr::Swapchain>` field `swapchain_loader` (the builder takes it out of an
old swapchain being recycled); the device reference is elided (every device call
is traced instead). -/
structure Swapchain where
  handle : Nat
  loader : Option Unit
  swapchain_format : SurfaceFormat
  swapchain_extent : Extent2D
  swapchain_images : List Nat
  image_views : List Nat
  deriving DecidableEq, Repr

/-- `Swapchain::drop` (src/src/swapchain.rs, lines 21-33): destroy every image
view, then destroy the swapchain through the loader.  When the loader field has
been taken (`None`), the `unwrap()` in the drop panics before the
`destroy_swapchain` call is reached, so no destroy-swapchain event occurs. -/
def Swapchain.dropEvents (s : Swapchain) : List Event :=
  (s.image_views.map Event.destroyImageView) ++
    (match s.loader with
     | some _ => [Event.destroySwapchain s.handle]
     | none => [])

/-- ash `khr::Swapchain::acquire_next_image`: `SUCCESS` yields `Ok((index, false))`,
`SUBOPTIMAL_KHR` yields `Ok((index, true))`, every other result code is an error. -/
def ashAcquireNextImage (raw : VkResult) (index : Nat) : Except VkResult (Nat × Bool) :=
  match raw with
  | VkResult.success => Except.ok (index, false)
  | VkResult.suboptimalKhr => Except.ok (index, true)
  | r => Except.error r

/-- ash `khr::Swapchain::queue_present`: `SUCCESS` yields `Ok(false)`,
`SUBOPTIMAL_KHR` yields `Ok(true)`, every other result code is an error. -/
def ashQueuePresent (raw : VkResult) : Except VkResult Bool :=
  match raw with
  | VkResult.success => Except.ok false
  | VkResult.suboptimalKhr => Except.ok true
  | r => Except.error r

/-- `Swapchain::acquire_next_image` (src/src/swapchain.rs, lines 56-67): one
driver acquire with the given signal semaphore; ash-level errors become
`SwapchainError`, and the destructuring `let (index, _) = ...` keeps only the
image index, discarding ash's suboptimal flag. -/
def Swapchain.acquire_next_image (s : Swapchain) (semaphore : Nat)
    (raw : VkResult) (rawIndex : Nat) : List Event × Except VulkanError Nat :=
  ([Event.acquireNextImage semaphore],
   match ashAcquireNextImage raw rawIndex with
   | Except.ok (index, _) => Except.ok index
   | Except.error e => Except.error (VulkanError.SwapchainError e.toMessage))

/-- `Swapchain::queue_present` (src/src/swapchain.rs, lines 69-88): one driver
present waiting on the given semaphore for the given image index; ash-level
errors become `SwapchainError`, and ash's suboptimal flag is discarded by `?;
Ok(())`. -/
def Swapchain.queue_present (s : Swapchain) (semaphore : Nat) (image_index : Nat)
    (raw : VkResult) : List Event × Except VulkanError Unit :=
  ([Event.queuePresent [semaphore] [image_index]],
   match ashQueuePresent raw with
   | Except.ok _ => Except.ok ()
   | Except.error e => Except.error (VulkanError.SwapchainError e.toMessage))

/-- What the surface reports to the swapchain builder: its handle, formats,
present modes and capabilities (each `get_physical_device_surface_*` query is
modelled as returning this data successfully). -/
structure SurfaceData where
  handle : Nat
  formats : List SurfaceFormat
  present_modes : List PresentMode
  capabilities : SurfaceCapabilities
  deriving DecidableEq, Repr

/-- Default surface format for `getD`; `choose_surface_format` only reaches it on
an empty format list, which device selection rules out. -/
def dfltSurfaceFormat : SurfaceFormat :=
  { format := Format.undefined, color_space := ColorSpace.srgbNonlinear }

/-- `SwapchainBuilder::choose_surface_format` (src/src/swapchain.rs,
lines 227-254): one undefined format means pick `B8G8R8A8_UNORM` with
`SRGB_NONLINEAR`; otherwise prefer that exact pair if reported, else the
surface's first reported format. -/
def choose_surface_format (formats : List SurfaceFormat) : SurfaceFormat :=
  if formats.length == 1 && (formats.getD 0 dfltSurfaceFormat).format == Format.undefined then
    { format := Format.b8g8r8a8Unorm, color_space := ColorSpace.srgbNonlinear }
  else
    match formats.find? (fun f =>
        f.format == Format.b8g8r8a8Unorm && f.color_space == ColorSpace.srgbNonlinear) with
    | some f => f
    | none => formats.getD 0 dfltSurfaceFormat

/-- `SwapchainBuilder::choose_present_mode` (src/src/swapchain.rs, lines 256-266):
`MAILBOX` if the surface lists it, else `FIFO`. -/
def choose_present_mode (present_modes : List PresentMode) : PresentMode :=
  (present_modes.find? (fun mode => mode == PresentMode.mailbox)).getD PresentMode.fifo

/-- `SwapchainBuilder::choose_surface_extent` (src/src/swapchain.rs,
lines 268-282): the caller's width/height when the surface reports the
`u32::MAX` sentinel, otherwise the surface's current extent. -/
def choose_surface_extent (caps : SurfaceCapabilities) (width height : Nat) : Extent2D :=
  if caps.current_extent.width == U32_MAX then { width := width, height := height }
  else caps.current_extent

/-- `SwapchainBuilder` (src/src/swapchain.rs, lines 91-128): the configuration a
build runs from.  The surface and physical device stand in for the context
reference the Rust builder holds. -/
structure SwapchainBuilder where
  surface : SurfaceData
  physical_device : PhysicalDevice
  old_swapchain : Option Swapchain
  frames_count : Nat
  width : Nat
  height : Nat
  deriving DecidableEq, Repr

/-- The `vk::SwapchainCreateInfoKHR` assembled by `SwapchainBuilder::build`
(src/src/swapchain.rs, lines 141-155), verbatim: in particular
`image_sharing_mode` is the constant `EXCLUSIVE` and `old_swapchain` is the old
swapchain's handle when one was supplied (null otherwise).  The queue-family
configuration held by `physical_device` is not consulted. -/
def SwapchainBuilder.createInfo (b : SwapchainBuilder) : SwapchainCreateInfo :=
  { surface := b.surface.handle
    min_image_count := b.frames_count
    image_format := (choose_surface_format b.surface.formats).format
    image_color_space := (choose_surface_format b.surface.formats).color_space
    image_extent := choose_surface_extent b.surface.capabilities b.width b.height
    image_array_layers := 1
    image_usage := IMAGE_USAGE_COLOR_ATTACHMENT ||| IMAGE_USAGE_STORAGE
    pre_transform := SURFACE_TRANSFORM_IDENTITY
    composite_alpha := COMPOSITE_ALPHA_OPAQUE
    present_mode := choose_present_mode b.surface.present_modes
    clipped := true
    image_sharing_mode := SharingMode.exclusive
    old_swapchain :=
      match b.old_swapchain with
      | some o => o.handle
      | none => 0 }

/-- Fresh-handle scheme for swapchain image views: the view of image `im` is `500 + im`. -/
def imageViewHandle (im : Nat) : Nat := 500 + im

/-- The observable outcome of one run of `SwapchainBuilder::build`: a normal
return, or a panic (a failed `unwrap` aborting the call before it returns). -/
inductive BuildOutcome where
  | returns (r : Except VulkanError Swapchain)
  | panics
  deriving Repr

/-- `SwapchainBuilder::build` (src/src/swapchain.rs, lines 130-225), with every
path of the Rust function modelled, including the implicit drop of the builder's
`old_swapchain` field on early returns and the panics in `Swapchain::drop`:

* The three surface queries behind `choose_surface_format` /
  `choose_present_mode` / `choose_surface_extent` (lines 131-133, 227-282) run
  first; `formatsQuery`, `presentModesQuery` and `capabilitiesQuery` are `some e`
  when the corresponding driver query fails with result `e`.  On such a failure
  the `?` returns `SurfaceError`, and dropping the builder drops the old
  swapchain — whose loader is still in place — so its image views *and* its
  swapchain handle are destroyed although no new swapchain was ever created.
* When the queries succeed, the create info is assembled carrying the old
  swapchain's handle, and the loader is taken out of the old swapchain
  (lines 157-158), leaving the old swapchain's `swapchain_loader` field `None`
  (if it already was `None`, the `unwrap` before `create_swapchain` panics).
* If `create_swapchain` fails, the `?` starts returning `SwapchainCreationError`,
  but dropping the builder drops the old swapchain: its views are destroyed and
  the drop then panics at the `unwrap` of the taken-out loader, so the error
  never reaches the caller.
* If `create_swapchain` succeeds and an old swapchain was supplied,
  `mem::drop(old_swapchain)` (lines 171-173) destroys the old views and then
  panics at the same `unwrap`, so the build never returns.
* Only with no old swapchain does the build proceed to `get_swapchain_images`
  and the per-image view creation and return `Ok`. -/
def SwapchainBuilder.build (b : SwapchainBuilder)
    (formatsQuery presentModesQuery capabilitiesQuery : Option VkResult)
    (createResult : Except VkResult Nat) (imagesResult : Except VkResult (List Nat)) :
    List Event × BuildOutcome :=
  let dropOldIntact : List Event := (b.old_swapchain.map Swapchain.dropEvents).getD []
  match formatsQuery with
  | some e =>
    (Event.getSurfaceFormats :: dropOldIntact,
     BuildOutcome.returns (Except.error (VulkanError.SurfaceError e.toMessage)))
  | none =>
  match presentModesQuery with
  | some e =>
    (Event.getSurfaceFormats :: Event.getSurfacePresentModes :: dropOldIntact,
     BuildOutcome.returns (Except.error (VulkanError.SurfaceError e.toMessage)))
  | none =>
  match capabilitiesQuery with
  | some e =>
    (Event.getSurfaceFormats :: Event.getSurfacePresentModes ::
       Event.getSurfaceCapabilities :: dropOldIntact,
     BuildOutcome.returns (Except.error (VulkanError.SurfaceError e.toMessage)))
  | none =>
  let queryEvents := [Event.getSurfaceFormats, Event.getSurfacePresentModes,
    Event.getSurfaceCapabilities]
  let info := b.createInfo
  let loader : Option Unit :=
    match b.old_swapchain with
    | some o => o.loader
    | none => some ()
  let oldTaken : Option Swapchain := b.old_swapchain.map (fun o => { o with loader := none })
  match loader with
  | none => (queryEvents, BuildOutcome.panics)
  | some _ =>
  match createResult with
  | Except.error e =>
    (match oldTaken with
     | some o =>
       (queryEvents ++ Event.createSwapchain info :: o.dropEvents,
        BuildOutcome.panics)
     | none =>
       (queryEvents ++ [Event.createSwapchain info],
        BuildOutcome.returns
          (Except.error (VulkanError.SwapchainCreationError e.toMessage))))
  | Except.ok newHandle =>
    match oldTaken with
    | some o =>
      (queryEvents ++ Event.createSwapchain info :: o.dropEvents,
       BuildOutcome.panics)
    | none =>
    match imagesResult with
    | Except.error e =>
      (queryEvents ++ [Event.createSwapchain info, Event.getSwapchainImages newHandle],
       BuildOutcome.returns
         (Except.error (VulkanError.SwapchainCreationError e.toMessage)))
    | Except.ok images =>
      (queryEvents ++ Event.createSwapchain info :: Event.getSwapchainImages newHandle ::
         images.map Event.createImageView,
       BuildOutcome.returns (Except.ok
         { handle := newHandle
           loader := loader
           swapchain_format := choose_surface_format b.surface.formats
           swapchain_extent := choose_surface_extent b.surface.capabilities b.width b.height
           swapchain_images := images
           image_views := images.map imageViewHandle }))

/-! ## src/src/vulkan_context.rs -/

/-- The driver's answers for one pass through the frame cycle. -/
structure FrameOracle where
  waitFenceResult : VkResult
  acquireResult : VkResult
  acquireIndex : Nat
  beginResult : VkResult
  endResult : VkResult
  resetResult : VkResult
  submitResult : VkResult
  presentResult : VkResult
  deriving DecidableEq, Repr

/-- `VulkanContext` (src/src/vulkan_context.rs, lines 21-35): the fields driving
the frame cycle (the remaining fields are resource handles the cycle never
reads). -/
structure VulkanContext where
  command_buffers : CommandBuffers
  swapchain : Swapchain
  frame_index : Nat
  frames_count : Nat
  back_buffer_index : Nat
  deriving DecidableEq, Repr

/-- `VulkanContext::frame_begin` (src/src/vulkan_context.rs, lines 105-114):
wait on the current slot's fence, acquire the next image with the slot's
present-complete semaphore storing the returned index into
`back_buffer_index`, then begin the slot's command buffer.  Each `?` returns
the error with no further state change. -/
def VulkanContext.frame_begin (ctx : VulkanContext) (o : FrameOracle) :
    List Event × VulkanContext × Except VulkanError Unit :=
  let i := ctx.frame_index
  let (ev1, r1) := ctx.command_buffers.wait_for_fence i o.waitFenceResult
  match r1 with
  | Except.error e => (ev1, ctx, Except.error e)
  | Except.ok _ =>
    let (ev2, r2) := ctx.swapchain.acquire_next_image
      (ctx.command_buffers.get_present_complete_semaphore i) o.acquireResult o.acquireIndex
    match r2 with
    | Except.error e => (ev1 ++ ev2, ctx, Except.error e)
    | Except.ok index =>
      let ctx' := { ctx with back_buffer_index := index }
      let (ev3, r3) := ctx'.command_buffers.begin_command_buffer i o.beginResult
      (ev1 ++ ev2 ++ ev3, ctx', r3)

/-- `VulkanContext::frame_end` (src/src/vulkan_context.rs, lines 116-120): end
the slot's command buffer, reset the slot's fence, submit.  It takes `&self`, so
it cannot change `frame_index` or any other context field. -/
def VulkanContext.frame_end (ctx : VulkanContext) (o : FrameOracle) :
    List Event × Except VulkanError Unit :=
  let i := ctx.frame_index
  let (ev1, r1) := ctx.command_buffers.end_command_buffer i o.endResult
  match r1 with
  | Except.error e => (ev1, Except.error e)
  | Except.ok _ =>
    let (ev2, r2) := ctx.command_buffers.reset_fence i o.resetResult
    match r2 with
    | Except.error e => (ev1 ++ ev2, Except.error e)
    | Except.ok _ =>
      let (ev3, r3) := ctx.command_buffers.queue_submit i o.submitResult
      (ev1 ++ ev2 ++ ev3, r3)

/-- `VulkanContext::frame_present` (src/src/vulkan_context.rs, lines 122-130):
present the acquired image waiting on the slot's render-complete semaphore; on
success advance `frame_index` to `(frame_index + 1) % frames_count`, on error
return it with the context unchanged. -/
def VulkanContext.frame_present (ctx : VulkanContext) (o : FrameOracle) :
    List Event × VulkanContext × Except VulkanError Unit :=
  let (ev, r) := ctx.swapchain.queue_present
    (ctx.command_buffers.get_render_complete_semaphore ctx.frame_index)
    ctx.back_buffer_index o.presentResult
  match r with
  | Except.error e => (ev, ctx, Except.error e)
  | Except.ok _ =>
    (ev, { ctx with frame_index := (ctx.frame_index + 1) % ctx.frames_count }, Except.ok ())

/-- `VulkanContextBuilder::build` (src/src/vulkan_context.rs, lines 275-320),
restricted to the frame-cycle state: the command-buffer ring is built with the
configured frames count (`create_command_buffers`), the swapchain is the one
built for the surface, and the indices start at `frame_index = 0`,
`back_buffer_index = 0` with `frames_count` as configured. -/
def VulkanContextBuilder.build (frames_count : Nat) (swapchain : Swapchain) : VulkanContext :=
  { command_buffers := (CommandBuffersBuilder.build frames_count).2
    swapchain := swapchain
    frame_index := 0
    frames_count := frames_count
    back_buffer_index := 0 }

/-- One complete `frame_begin` / `frame_end` / `frame_present` cycle, `some` when
all three calls succeed. -/
def cycleOk (ctx : VulkanContext) (o : FrameOracle) : Option VulkanContext :=
  match (ctx.frame_begin o).2 with
  | (_, Except.error _) => none
  | (ctx1, Except.ok _) =>
    match (ctx1.frame_end o).2 with
    | Except.error _ => none
    | Except.ok _ =>
      match (ctx1.frame_present o).2 with
      | (_, Except.error _) => none
      | (ctx2, Except.ok _) => some ctx2

/-- Iterate successful frame cycles, one oracle per cycle. -/
def runCycles : VulkanContext → List FrameOracle → Option VulkanContext
  | ctx, [] => some ctx
  | ctx, o :: os =>
    match cycleOk ctx o with
    | none => none
    | some ctx' => runCycles ctx' os

/-! ## Shared concrete instances used by witnesses -/

/-- A concrete swapchain value for witness instantiations. -/
def swExample : Swapchain :=
  { handle := 10
    loader := some ()
    swapchain_format := { format := Format.b8g8r8a8Unorm, color_space := ColorSpace.srgbNonlinear }
    swapchain_extent := { width := 640, height := 480 }
    swapchain_images := [20, 21]
    image_views := [520, 521] }

/-- A context freshly built with two frames in flight. -/
def ctxExample : VulkanContext := VulkanContextBuilder.build 2 swExample

/-- An all-success driver oracle for one frame cycle. -/
def oracleAllSuccess : FrameOracle :=
  { waitFenceResult := VkResult.success, acquireResult := VkResult.success, acquireIndex := 0
    beginResult := VkResult.success, endResult := VkResult.success
    resetResult := VkResult.success, submitResult := VkResult.success
    presentResult := VkResult.success }

/-- A driver oracle whose fence wait times out. -/
def oracleFenceTimeout : FrameOracle :=
  { oracleAllSuccess with waitFenceResult := VkResult.timeout }

/-- A driver oracle whose present reports a lost surface. -/
def oraclePresentLost : FrameOracle :=
  { oracleAllSuccess with presentResult := VkResult.errorSurfaceLostKhr }

/-! ## Claim C5: memory-type selection is pure first fit -/

theorem findMemoryTypeGo_eq_some (type_filter properties : Nat) :
    ∀ (l : List Nat) (start r : Nat),
      findMemoryTypeGo type_filter properties l start = some r ↔
        ∃ k, k < l.length ∧ r = start + k ∧
          (type_filter &&& (1 <<< (start + k)) ≠ 0 ∧
            (l.getD k 0) &&& properties = properties) ∧
          ∀ j, j < k → ¬(type_filter &&& (1 <<< (start + j)) ≠ 0 ∧
            (l.getD j 0) &&& properties = properties) := by
  intro l
  induction l with
  | nil => intro start r; simp [findMemoryTypeGo]
  | cons flags rest ih =>
    intro start r
    by_cases hfit : type_filter &&& (1 <<< start) ≠ 0 ∧ flags &&& properties = properties
    · have hcond : (type_filter &&& (1 <<< start) != 0 &&
          (flags &&& properties == properties)) = true := by
        simp [bne_iff_ne, hfit.1, hfit.2]
      constructor
      · intro h
        rw [findMemoryTypeGo, hcond] at h
        simp only [if_true] at h
        refine ⟨0, by simp, by simpa using h.symm, by simpa using hfit, by simp⟩
      · rintro ⟨k, hk, hr, hfits, hmin⟩
        rcases Nat.eq_zero_or_pos k with hk0 | hkpos
        · subst hk0
          rw [findMemoryTypeGo, hcond]
          simp [hr]
        · exact absurd (by simpa using hfit) (hmin 0 hkpos)
    · have hcond : (type_filter &&& (1 <<< start) != 0 &&
          (flags &&& properties == properties)) = false := by
        rcases Decidable.not_and_iff_or_not.mp hfit with h | h
        · simp only [ne_eq, not_not] at h
          simp [h]
        · simp [bne_iff_ne, h]
      constructor
      · intro h
        rw [findMemoryTypeGo, hcond] at h
        simp only [Bool.false_eq_true, if_false] at h
        rcases (ih (start + 1) r).mp h with ⟨k, hk, hr, hfits, hmin⟩
        refine ⟨k + 1, by simpa using hk, by omega, ?_, ?_⟩
        · have : start + 1 + k = start + (k + 1) := by omega
          rw [this] at hfits
          simpa using hfits
        · intro j hj
          rcases Nat.eq_zero_or_pos j with hj0 | hjpos
          · subst hj0; simpa using hfit
          · obtain ⟨j', rfl⟩ := Nat.exists_eq_succ_of_ne_zero (Nat.pos_iff_ne_zero.mp hjpos)
            have := hmin j' (by omega)
            have heq : start + 1 + j' = start + (j' + 1) := by omega
            rw [heq] at this
            simpa using this
      · rintro ⟨k, hk, hr, hfits, hmin⟩
        rcases Nat.eq_zero_or_pos k with hk0 | hkpos
        · subst hk0
          exact absurd (by simpa using hfits) hfit
        · obtain ⟨k', rfl⟩ := Nat.exists_eq_succ_of_ne_zero (Nat.pos_iff_ne_zero.mp hkpos)
          rw [findMemoryTypeGo, hcond]
          simp only [Bool.false_eq_true, if_false]
          refine (ih (start + 1) r).mpr ⟨k', by simpa using hk, by omega, ?_, ?_⟩
          · have heq : start + (k' + 1) = start + 1 + k' := by omega
            rw [heq] at hfits
            simpa using hfits
          · intro j hj
            have := hmin (j + 1) (by omega)
            have heq : start + (j + 1) = start + 1 + j := by omega
            rw [heq] at this
            simpa using this

theorem findMemoryTypeGo_eq_none (type_filter properties : Nat) :
    ∀ (l : List Nat) (start : Nat),
      findMemoryTypeGo type_filter properties l start = none ↔
        ∀ k, k < l.length → ¬(type_filter &&& (1 <<< (start + k)) ≠ 0 ∧
          (l.getD k 0) &&& properties = properties) := by
  intro l
  induction l with
  | nil => intro start; simp [findMemoryTypeGo]
  | cons flags rest ih =>
    intro start
    by_cases hfit : type_filter &&& (1 <<< start) ≠ 0 ∧ flags &&& properties = properties
    · have hcond : (type_filter &&& (1 <<< start) != 0 &&
          (flags &&& properties == properties)) = true := by
        simp [bne_iff_ne, hfit.1, hfit.2]
      rw [findMemoryTypeGo, hcond]
      simp only [if_true]
      constructor
      · intro h; exact absurd h (by simp)
      · intro h
        exact absurd (by simpa using hfit) (h 0 (by simp))
    · have hcond : (type_filter &&& (1 <<< start) != 0 &&
          (flags &&& properties == properties)) = false := by
        rcases Decidable.not_and_iff_or_not.mp hfit with h | h
        · simp only [ne_eq, not_not] at h
          simp [h]
        · simp [bne_iff_ne, h]
      rw [findMemoryTypeGo, hcond]
      simp only [Bool.false_eq_true, if_false]
      rw [ih (start + 1)]
      constructor
      · intro h k hk
        rcases Nat.eq_zero_or_pos k with hk0 | hkpos
        · subst hk0; simpa using hfit
        · obtain ⟨k', rfl⟩ := Nat.exists_eq_succ_of_ne_zero (Nat.pos_iff_ne_zero.mp hkpos)
          have := h k' (by simpa using hk)
          have heq : start + 1 + k' = start + (k' + 1) := by omega
          rw [heq] at this
          simpa using this
      · intro h k hk
        have := h (k + 1) (by simpa using hk)
        have heq : start + (k + 1) = start + 1 + k := by omega
        rw [heq] at this
        simpa using this

/-- C5: `find_memory_type` is pure first fit — for every `type_filter` bitmask and
desired property flags it returns the smallest index `i` in the device's
memory-type table with bit `i` set in the filter and property flags containing
the desired ones, returns `none` when no index qualifies, and, being a function
of exactly those inputs, returns the same result on identical inputs. -/
theorem find_memory_type_first_fit (memory_types : List Nat) (type_filter properties : Nat) :
    (∀ i, PhysicalDevice.find_memory_type memory_types type_filter properties = some i ↔
        (i < memory_types.length ∧ memTypeFits memory_types type_filter properties i ∧
          ∀ j, j < i → ¬ memTypeFits memory_types type_filter properties j)) ∧
    (PhysicalDevice.find_memory_type memory_types type_filter properties = none ↔
        ∀ i, i < memory_types.length → ¬ memTypeFits memory_types type_filter properties i) ∧
    PhysicalDevice.find_memory_type memory_types type_filter properties =
      PhysicalDevice.find_memory_type memory_types type_filter properties := by
  refine ⟨?_, ?_, rfl⟩
  · intro i
    rw [PhysicalDevice.find_memory_type, findMemoryTypeGo_eq_some]
    unfold memTypeFits
    constructor
    · rintro ⟨k, hk, rfl, hfits, hmin⟩
      refine ⟨by simpa using hk, by simpa using hfits, ?_⟩
      intro j hj
      have := hmin j (by simpa using hj)
      simpa using this
    · rintro ⟨hi, hfits, hmin⟩
      exact ⟨i, hi, by simp, by simpa using hfits, fun j hj => by simpa using hmin j hj⟩
  · rw [PhysicalDevice.find_memory_type, findMemoryTypeGo_eq_none]
    unfold memTypeFits
    constructor
    · intro h i hi; simpa using h i hi
    · intro h k hk; simpa using h k hk

/-- Witness for C5 at a concrete table: filter `6` with desired flags `4` selects
index 1 of the table `[8, 12, 14]`. -/
theorem find_memory_type_first_fit_witness :
    PhysicalDevice.find_memory_type [8, 12, 14] 6 4 = some 1 :=
  ((find_memory_type_first_fit [8, 12, 14] 6 4).1 1).mpr (by decide)

/-! ## Claim C6: bounded fence wait, fatal on non-success, clean propagation -/

/-- C6: `wait_for_fences` issues exactly one underlying wait bounded by the fixed
`FENCE_TIMEOUT` constant (no retry); every non-success driver result — timeout
included — is returned to the caller as `DeviceError`; and when the wait fails,
`frame_begin` propagates that very error with the context (hence the whole frame
cycle state) unchanged. -/
theorem wait_for_fences_bounded_fatal :
    (∀ (fences : List Nat) (raw : VkResult),
       (VulkanDevice.wait_for_fences fences raw).1 =
         [Event.waitFences fences true FENCE_TIMEOUT]) ∧
    (∀ (fences : List Nat) (raw : VkResult), raw ≠ VkResult.success →
       (VulkanDevice.wait_for_fences fences raw).2 =
         Except.error (VulkanError.DeviceError raw.toMessage)) ∧
    (∀ (ctx : VulkanContext) (o : FrameOracle), o.waitFenceResult ≠ VkResult.success →
       (ctx.frame_begin o).2.1 = ctx ∧
       (ctx.frame_begin o).2.2 =
         Except.error (VulkanError.DeviceError o.waitFenceResult.toMessage)) := by
  refine ⟨fun fences raw => rfl, ?_, ?_⟩
  · intro fences raw h
    simp [VulkanDevice.wait_for_fences, ashWaitForFences, h]
  · intro ctx o h
    unfold VulkanContext.frame_begin CommandBuffers.wait_for_fence
      VulkanDevice.wait_for_fences ashWaitForFences
    simp [h]

/-- Witness for C6: a timed-out fence wait during `frame_begin` leaves the fresh
two-frame context untouched and surfaces `DeviceError`. -/
theorem wait_for_fences_bounded_fatal_witness :
    (ctxExample.frame_begin oracleFenceTimeout).2.1 = ctxExample ∧
    (ctxExample.frame_begin oracleFenceTimeout).2.2 =
      Except.error (VulkanError.DeviceError "TIMEOUT") :=
  wait_for_fences_bounded_fatal.2.2 ctxExample oracleFenceTimeout (by decide)

/-! ## Claim C7 (corrected): acquire_next_image result handling -/

/-- C7 counterexample: at the concrete driver result `SUBOPTIMAL_KHR` with image
index 1, `acquire_next_image` returns the plain success `Except.ok 1` — the very
value it returns for `SUCCESS` — so the suboptimal condition is folded into a
plain success and dropped, contradicting the claim that it is surfaced as a
resize signal. -/
theorem acquire_suboptimal_folded_counterexample :
    (swExample.acquire_next_image 300 VkResult.suboptimalKhr 1).2 = Except.ok 1 ∧
    (swExample.acquire_next_image 300 VkResult.success 1).2 = Except.ok 1 := by
  constructor <;> rfl

/-- C7 (amended): `acquire_next_image` returns the acquired image index when the
driver reports `SUCCESS`, and fails with `SwapchainError` on a device-level
failure result such as `ERROR_OUT_OF_DATE_KHR`; a `SUBOPTIMAL_KHR` result,
however, is also returned as a plain success carrying only the index — the
suboptimal flag is discarded, not surfaced. -/
theorem acquire_next_image_result :
    ∀ (s : Swapchain) (semaphore raw_index : Nat) (raw : VkResult),
      ((raw = VkResult.success ∨ raw = VkResult.suboptimalKhr) →
        (s.acquire_next_image semaphore raw raw_index).2 = Except.ok raw_index) ∧
      (raw ≠ VkResult.success → raw ≠ VkResult.suboptimalKhr →
        (s.acquire_next_image semaphore raw raw_index).2 =
          Except.error (VulkanError.SwapchainError raw.toMessage)) := by
  intro s semaphore raw_index raw
  constructor
  · rintro (rfl | rfl) <;> rfl
  · intro h1 h2
    cases raw <;> first
      | exact absurd rfl h1
      | exact absurd rfl h2
      | rfl

/-- Witness for C7: an out-of-date swapchain at acquire yields `SwapchainError`. -/
theorem acquire_next_image_result_witness :
    (swExample.acquire_next_image 300 VkResult.errorOutOfDateKhr 0).2 =
      Except.error (VulkanError.SwapchainError "ERROR_OUT_OF_DATE_KHR") :=
  (acquire_next_image_result swExample 300 0 VkResult.errorOutOfDateKhr).2
    (by decide) (by decide)

/-! ## Claim C8 (corrected): swapchain image sharing mode -/

/-- A builder configuration whose physical device has distinct graphics and
present queue families. -/
def builderTwoFamilies : SwapchainBuilder :=
  { surface :=
      { handle := 1
        formats := [{ format := Format.b8g8r8a8Unorm, color_space := ColorSpace.srgbNonlinear }]
        present_modes := [PresentMode.fifo]
        capabilities := { current_extent := { width := 640, height := 480 } } }
    physical_device := { graphics_queue_family := 0, present_queue_family := 1 }
    old_swapchain := none
    frames_count := 2
    width := 640
    height := 480 }

/-- C8 counterexample: with graphics family 0 and present family 1 — two distinct
families — the swapchain create info still selects `EXCLUSIVE`, not `CONCURRENT`,
sharing, contradicting the claim that differing families yield concurrent sharing. -/
theorem swapchain_sharing_mode_counterexample :
    builderTwoFamilies.physical_device.graphics_queue_family ≠
      builderTwoFamilies.physical_device.present_queue_family ∧
    builderTwoFamilies.createInfo.image_sharing_mode = SharingMode.exclusive ∧
    builderTwoFamilies.createInfo.image_sharing_mode ≠ SharingMode.concurrent := by
  refine ⟨by decide, rfl, by decide⟩

/-- C8 (amended): swapchain creation never consults the queue-family
configuration — the create info's image sharing mode is the constant `EXCLUSIVE`
for every builder configuration, including those whose graphics and present
families differ. -/
theorem swapchain_sharing_mode_always_exclusive :
    ∀ b : SwapchainBuilder, b.createInfo.image_sharing_mode = SharingMode.exclusive := by
  intro b; rfl

/-- Witness for C8 at the two-family configuration. -/
theorem swapchain_sharing_mode_always_exclusive_witness :
    builderTwoFamilies.createInfo.image_sharing_mode = SharingMode.exclusive :=
  swapchain_sharing_mode_always_exclusive builderTwoFamilies

/-! ## Claim C10: frame_present is atomic on failure -/

/-- C10: `frame_present` advances `frame_index` to `(i + 1) % frames_count` and
returns success exactly when the driver present succeeds (ash returns `Ok` for
`SUCCESS` and `SUBOPTIMAL_KHR`); on any present error it returns that
`SwapchainError` with the context — in particular `frame_index` — unchanged, so
the next `frame_begin` reuses the same ring slot. -/
theorem frame_present_atomic :
    ∀ (ctx : VulkanContext) (o : FrameOracle),
      ((o.presentResult = VkResult.success ∨ o.presentResult = VkResult.suboptimalKhr) →
        (ctx.frame_present o).2.1 =
          { ctx with frame_index := (ctx.frame_index + 1) % ctx.frames_count } ∧
        (ctx.frame_present o).2.2 = Except.ok ()) ∧
      (o.presentResult ≠ VkResult.success → o.presentResult ≠ VkResult.suboptimalKhr →
        (ctx.frame_present o).2.1 = ctx ∧
        (ctx.frame_present o).2.2 =
          Except.error (VulkanError.SwapchainError o.presentResult.toMessage)) := by
  intro ctx o
  constructor
  · intro h
    unfold VulkanContext.frame_present Swapchain.queue_present ashQueuePresent
    rcases h with h | h <;> rw [h] <;> exact ⟨rfl, rfl⟩
  · intro h1 h2
    unfold VulkanContext.frame_present Swapchain.queue_present ashQueuePresent
    cases hp : o.presentResult <;> first
      | exact absurd hp h1
      | exact absurd hp h2
      | exact ⟨rfl, rfl⟩

/-- Witness for C10: a lost-surface present on the fresh two-frame context
returns `SwapchainError` and leaves the context on slot 0. -/
theorem frame_present_atomic_witness :
    (ctxExample.frame_present oraclePresentLost).2.1 = ctxExample ∧
    (ctxExample.frame_present oraclePresentLost).2.2 =
      Except.error (VulkanError.SwapchainError "ERROR_SURFACE_LOST_KHR") :=
  (frame_present_atomic ctxExample oraclePresentLost).2 (by decide) (by decide)

/-! ## Claim C3: the ring index after M completed cycles is M mod F -/

theorem frame_begin_preserves (ctx : VulkanContext) (o : FrameOracle) :
    (ctx.frame_begin o).2.1.command_buffers = ctx.command_buffers ∧
    (ctx.frame_begin o).2.1.swapchain = ctx.swapchain ∧
    (ctx.frame_begin o).2.1.frame_index = ctx.frame_index ∧
    (ctx.frame_begin o).2.1.frames_count = ctx.frames_count := by
  unfold VulkanContext.frame_begin CommandBuffers.wait_for_fence VulkanDevice.wait_for_fences
    ashWaitForFences Swapchain.acquire_next_image ashAcquireNextImage
    CommandBuffers.begin_command_buffer VulkanDevice.begin_command_buffer
  cases o.waitFenceResult <;> cases o.acquireResult <;> simp

theorem frame_present_ok_advances (ctx : VulkanContext) (o : FrameOracle) :
    (ctx.frame_present o).2.2 = Except.ok () →
    (ctx.frame_present o).2.1 =
      { ctx with frame_index := (ctx.frame_index + 1) % ctx.frames_count } := by
  unfold VulkanContext.frame_present Swapchain.queue_present ashQueuePresent
  cases o.presentResult <;> simp

theorem cycleOk_step (ctx ctx' : VulkanContext) (o : FrameOracle) :
    cycleOk ctx o = some ctx' →
    ctx'.frames_count = ctx.frames_count ∧
    ctx'.frame_index = (ctx.frame_index + 1) % ctx.frames_count := by
  intro h
  unfold cycleOk at h
  rcases hb : (ctx.frame_begin o).2 with ⟨ctx1, r1⟩
  rw [hb] at h
  cases r1 with
  | error e => simp at h
  | ok _ =>
    simp only at h
    have hpres := frame_begin_preserves ctx o
    rw [hb] at hpres
    cases r2 : (ctx1.frame_end o).2 with
    | error e => rw [r2] at h; simp at h
    | ok _ =>
      rw [r2] at h
      simp only at h
      rcases hp : (ctx1.frame_present o).2 with ⟨ctx2, r3⟩
      rw [hp] at h
      cases r3 with
      | error e => simp at h
      | ok _ =>
        simp only [Option.some.injEq] at h
        subst h
        have hadv := frame_present_ok_advances ctx1 o
        rw [hp] at hadv
        have hadv' := hadv rfl
        simp only at hadv'
        subst hadv'
        simp only
        exact ⟨hpres.2.2.2, by rw [hpres.2.2.1, hpres.2.2.2]⟩

theorem runCycles_mod (os : List FrameOracle) :
    ∀ (ctx ctx' : VulkanContext) (k : Nat),
      ctx.frame_index = k % ctx.frames_count →
      runCycles ctx os = some ctx' →
      ctx'.frames_count = ctx.frames_count ∧
      ctx'.frame_index = (k + os.length) % ctx.frames_count := by
  induction os with
  | nil =>
    intro ctx ctx' k hk h
    simp only [runCycles, Option.some.injEq] at h
    subst h
    simpa using hk
  | cons o os ih =>
    intro ctx ctx' k hk h
    unfold runCycles at h
    rcases hc : cycleOk ctx o with _ | ctx1
    · rw [hc] at h; simp at h
    · rw [hc] at h
      simp only at h
      obtain ⟨hF, hfi⟩ := cycleOk_step ctx ctx1 o hc
      have hk1 : ctx1.frame_index = (k + 1) % ctx1.frames_count := by
        rw [hfi, hk, hF, Nat.mod_add_mod]
      obtain ⟨hF', hfi'⟩ := ih ctx1 ctx' (k + 1) hk1 h
      refine ⟨by rw [hF', hF], ?_⟩
      rw [hfi', hF]
      congr 1
      simp [List.length_cons]
      omega

/-- C3: the freshly built context starts at `frame_index 0`; `frame_begin` never
changes `frame_index`; a successful `frame_present` advances it to
`(i + 1) % frames_count` (`frame_end` takes the context immutably and returns no
state at all); hence after any `M` completed begin/end/present cycles from a
fresh context with `F ≥ 1` configured frames in flight, the active slot index is
exactly `M % F` (and in particular a valid slot). -/
theorem frame_index_ring :
    (∀ (F : Nat) (sw : Swapchain), (VulkanContextBuilder.build F sw).frame_index = 0) ∧
    (∀ (ctx : VulkanContext) (o : FrameOracle),
       (ctx.frame_begin o).2.1.frame_index = ctx.frame_index) ∧
    (∀ (ctx : VulkanContext) (o : FrameOracle),
       (ctx.frame_present o).2.2 = Except.ok () →
       (ctx.frame_present o).2.1.frame_index = (ctx.frame_index + 1) % ctx.frames_count) ∧
    (∀ (F : Nat) (sw : Swapchain) (os : List FrameOracle) (ctx : VulkanContext),
       1 ≤ F →
       runCycles (VulkanContextBuilder.build F sw) os = some ctx →
       ctx.frame_index = os.length % F ∧ ctx.frame_index < F) := by
  refine ⟨fun F sw => rfl, ?_, ?_, ?_⟩
  · intro ctx o
    exact (frame_begin_preserves ctx o).2.2.1
  · intro ctx o h
    rw [frame_present_ok_advances ctx o h]
  · intro F sw os ctx hF h
    have hstart : (VulkanContextBuilder.build F sw).frame_index =
        0 % (VulkanContextBuilder.build F sw).frames_count := by
      simp [VulkanContextBuilder.build]
    obtain ⟨hFc, hfi⟩ := runCycles_mod os (VulkanContextBuilder.build F sw) ctx 0 hstart h
    have hbuildF : (VulkanContextBuilder.build F sw).frames_count = F := rfl
    rw [hbuildF] at hFc hfi
    simp only [Nat.zero_add] at hfi
    exact ⟨hfi, by rw [hfi]; exact Nat.mod_lt _ (by omega)⟩

/-- Witness for C3: three successful cycles with `F = 2` finish on slot
`1 = 3 % 2`. -/
theorem frame_index_ring_witness :
    ({ command_buffers := (CommandBuffersBuilder.build 2).2, swapchain := swExample,
       frame_index := 1, frames_count := 2, back_buffer_index := 0 } :
        VulkanContext).frame_index = 3 % 2 ∧
    ({ command_buffers := (CommandBuffersBuilder.build 2).2, swapchain := swExample,
       frame_index := 1, frames_count := 2, back_buffer_index := 0 } :
        VulkanContext).frame_index < 2 :=
  frame_index_ring.2.2.2 2 swExample [oracleAllSuccess, oracleAllSuccess, oracleAllSuccess]
    _ (by decide) (by decide)

/-! ## Claims C1 and C2: the command/sync ring wiring -/

theorem getD_range_map (f : Nat → Nat) (F i : Nat) (h : i < F) :
    ((List.range F).map f).getD i 0 = f i := by
  rw [List.getD_eq_getElem?_getD]
  simp [List.getElem?_map, List.getElem?_range, h]

theorem frame_begin_trace_head (ctx : VulkanContext) (o : FrameOracle) :
    (ctx.frame_begin o).1.head? =
      some (Event.waitFences [ctx.command_buffers.fences.getD ctx.frame_index 0] true
        FENCE_TIMEOUT) := by
  unfold VulkanContext.frame_begin CommandBuffers.wait_for_fence VulkanDevice.wait_for_fences
    ashWaitForFences Swapchain.acquire_next_image ashAcquireNextImage
    CommandBuffers.begin_command_buffer VulkanDevice.begin_command_buffer
  cases o.waitFenceResult <;> cases o.acquireResult <;> simp

theorem frame_begin_trace_begin_mem (ctx : VulkanContext) (o : FrameOracle) (cb : Nat) :
    Event.beginCommandBuffer cb ∈ (ctx.frame_begin o).1 →
    cb = ctx.command_buffers.command_buffers.getD ctx.frame_index 0 := by
  unfold VulkanContext.frame_begin CommandBuffers.wait_for_fence VulkanDevice.wait_for_fences
    ashWaitForFences Swapchain.acquire_next_image ashAcquireNextImage
    CommandBuffers.begin_command_buffer VulkanDevice.begin_command_buffer
  cases o.waitFenceResult <;> cases o.acquireResult <;> intro h <;> simp_all

theorem frame_begin_trace_acquire_mem (ctx : VulkanContext) (o : FrameOracle) (s : Nat) :
    Event.acquireNextImage s ∈ (ctx.frame_begin o).1 →
    s = ctx.command_buffers.present_complete_semaphores.getD ctx.frame_index 0 := by
  unfold VulkanContext.frame_begin CommandBuffers.wait_for_fence VulkanDevice.wait_for_fences
    ashWaitForFences Swapchain.acquire_next_image ashAcquireNextImage
    CommandBuffers.get_present_complete_semaphore
    CommandBuffers.begin_command_buffer VulkanDevice.begin_command_buffer
  cases o.waitFenceResult <;> cases o.acquireResult <;> intro h <;> simp_all

/-- C1: slot reuse is fence-guarded — (a) every fence the ring builder creates
carries the SIGNALED creation flag; (b) `frame_begin`'s very first driver call
is the wait on the current slot's fence (bounded by `FENCE_TIMEOUT`), so it
precedes the re-begin of the slot's command buffer, and any begin event in the
trace targets exactly that slot's buffer; (c) the fence waited on is the very
fence `queue_submit` passes for that slot; (d) right after construction the
slot-0 fence is in the signaled set, so the first `frame_begin` does not block
on an unsignaled fence. -/
theorem ring_fence_guard :
    ∀ F : Nat, 1 ≤ F →
      (∀ e ∈ (CommandBuffersBuilder.build F).1, ∀ (b : Bool) (f : Nat),
         e = Event.createFence b f → b = true) ∧
      (∀ (ctx : VulkanContext) (o : FrameOracle),
         ctx.command_buffers = (CommandBuffersBuilder.build F).2 →
         ctx.frame_index < F →
         (ctx.frame_begin o).1.head? =
           some (Event.waitFences [fenceHandle ctx.frame_index] true FENCE_TIMEOUT) ∧
         (∀ cb, Event.beginCommandBuffer cb ∈ (ctx.frame_begin o).1 →
            cb = cbHandle ctx.frame_index)) ∧
      (∀ (i : Nat) (raw : VkResult), i < F →
         ((CommandBuffersBuilder.build F).2.queue_submit i raw).1 =
           [Event.queueSubmit
             { wait_semaphores := [presentSemHandle i]
               wait_dst_stage_mask := [PipelineStage.colorAttachmentOutput]
               command_buffers := [cbHandle i]
               signal_semaphores := [renderSemHandle i] }
             (fenceHandle i)]) ∧
      waitWouldBlock (signaledFencesOfTrace (CommandBuffersBuilder.build F).1)
        [(CommandBuffersBuilder.build F).2.fences.getD 0 0] = false := by
  intro F hF
  refine ⟨?_, ?_, ?_, ?_⟩
  · intro e he b f heq
    subst heq
    simp only [CommandBuffersBuilder.build, List.mem_cons, List.mem_flatMap,
      List.mem_range, List.not_mem_nil, or_false] at he
    rcases he with h | h | ⟨i, _, h | h | h⟩ <;> simp at h <;> exact h.1
  · intro ctx o hcb hlt
    have hget : ctx.command_buffers.fences.getD ctx.frame_index 0 =
        fenceHandle ctx.frame_index := by
      rw [hcb]
      simp only [CommandBuffersBuilder.build]
      exact getD_range_map fenceHandle F ctx.frame_index hlt
    have hgetcb : ctx.command_buffers.command_buffers.getD ctx.frame_index 0 =
        cbHandle ctx.frame_index := by
      rw [hcb]
      simp only [CommandBuffersBuilder.build]
      exact getD_range_map cbHandle F ctx.frame_index hlt
    constructor
    · rw [frame_begin_trace_head, hget]
    · intro cb hmem
      rw [frame_begin_trace_begin_mem ctx o cb hmem, hgetcb]
  · intro i raw hlt
    simp only [CommandBuffers.queue_submit, VulkanDevice.queue_submit,
      CommandBuffersBuilder.build]
    rw [getD_range_map presentSemHandle F i hlt, getD_range_map cbHandle F i hlt,
      getD_range_map renderSemHandle F i hlt, getD_range_map fenceHandle F i hlt]
  · have hget : (CommandBuffersBuilder.build F).2.fences.getD 0 0 = fenceHandle 0 := by
      simp only [CommandBuffersBuilder.build]
      exact getD_range_map fenceHandle F 0 (by omega)
    have hmem : fenceHandle 0 ∈ signaledFencesOfTrace (CommandBuffersBuilder.build F).1 := by
      unfold signaledFencesOfTrace CommandBuffersBuilder.build
      refine List.mem_flatMap.mpr ⟨Event.createFence true (fenceHandle 0), ?_, by simp⟩
      simp only [List.mem_cons, List.mem_flatMap, List.mem_range]
      exact Or.inr (Or.inr ⟨0, by omega, by simp⟩)
    rw [hget]
    simp only [waitWouldBlock]
    simpa using hmem

/-- Witness for C1 at `F = 2`, slot 0 of a fresh context with an all-success
oracle: the trace head is the slot-0 fence wait and the submit wiring passes
fence 200. -/
theorem ring_fence_guard_witness :
    (ctxExample.frame_begin oracleAllSuccess).1.head? =
      some (Event.waitFences [fenceHandle 0] true FENCE_TIMEOUT) ∧
    ((CommandBuffersBuilder.build 2).2.queue_submit 0 VkResult.success).1 =
      [Event.queueSubmit
        { wait_semaphores := [presentSemHandle 0]
          wait_dst_stage_mask := [PipelineStage.colorAttachmentOutput]
          command_buffers := [cbHandle 0]
          signal_semaphores := [renderSemHandle 0] }
        (fenceHandle 0)] :=
  ⟨((ring_fence_guard 2 (by decide)).2.1 ctxExample oracleAllSuccess rfl (by decide)).1,
   (ring_fence_guard 2 (by decide)).2.2.1 0 VkResult.success (by decide)⟩

/-- C2: for the active slot `i`, the semaphore `frame_begin` hands to
`acquire_next_image` is the slot's present-complete semaphore, and that exact
semaphore is the single wait semaphore of slot `i`'s `queue_submit`, waited at
`COLOR_ATTACHMENT_OUTPUT`, while the submission signals exactly the slot's
render-complete semaphore and passes exactly the slot's fence. -/
theorem slot_semaphore_wiring :
    ∀ (F : Nat) (ctx : VulkanContext) (o : FrameOracle) (raw : VkResult),
      ctx.command_buffers = (CommandBuffersBuilder.build F).2 →
      ctx.frame_index < F →
      (∀ s, Event.acquireNextImage s ∈ (ctx.frame_begin o).1 →
         s = presentSemHandle ctx.frame_index) ∧
      (ctx.command_buffers.queue_submit ctx.frame_index raw).1 =
        [Event.queueSubmit
          { wait_semaphores := [presentSemHandle ctx.frame_index]
            wait_dst_stage_mask := [PipelineStage.colorAttachmentOutput]
            command_buffers := [cbHandle ctx.frame_index]
            signal_semaphores := [renderSemHandle ctx.frame_index] }
          (fenceHandle ctx.frame_index)] := by
  intro F ctx o raw hcb hlt
  constructor
  · intro s hs
    rw [frame_begin_trace_acquire_mem ctx o s hs, hcb]
    simp only [CommandBuffersBuilder.build]
    exact getD_range_map presentSemHandle F ctx.frame_index hlt
  · rw [hcb]
    simp only [CommandBuffers.queue_submit, VulkanDevice.queue_submit,
      CommandBuffersBuilder.build]
    rw [getD_range_map presentSemHandle F ctx.frame_index hlt,
      getD_range_map cbHandle F ctx.frame_index hlt,
      getD_range_map renderSemHandle F ctx.frame_index hlt,
      getD_range_map fenceHandle F ctx.frame_index hlt]

/-- Witness for C2 at `F = 2`, slot 0: the submit wiring of the fresh ring. -/
theorem slot_semaphore_wiring_witness :
    (ctxExample.command_buffers.queue_submit 0 VkResult.success).1 =
      [Event.queueSubmit
        { wait_semaphores := [presentSemHandle 0]
          wait_dst_stage_mask := [PipelineStage.colorAttachmentOutput]
          command_buffers := [cbHandle 0]
          signal_semaphores := [renderSemHandle 0] }
        (fenceHandle 0)] :=
  (slot_semaphore_wiring 2 ctxExample oracleAllSuccess VkResult.success rfl (by decide)).2

/-! ## Claim C4: physical-device selection -/

theorem range_any_supp_head_true (supp : List Bool) (n start : Nat)
    (h : supp[start]?.getD false = true) :
    ((List.range (n + 1)).any fun k => supp[start + k]?.getD false) = true :=
  List.any_eq_true.mpr ⟨0, List.mem_range.mpr (by omega), by simpa using h⟩

theorem range_any_supp_head_false (supp : List Bool) (n start : Nat)
    (h : supp[start]?.getD false = false) :
    ((List.range (n + 1)).any fun k => supp[start + k]?.getD false) =
      ((List.range n).any fun k => supp[start + 1 + k]?.getD false) := by
  rw [List.range_succ_eq_map]
  simp only [List.any_cons, List.any_map, Function.comp_def, Nat.add_zero, h, Bool.false_or]
  congr 1
  funext k
  congr 2
  omega

set_option maxRecDepth 2048 in
theorem findQueueFamiliesGo_complete (d : PhysicalDeviceData) :
    ∀ (l : List QueueFamilyProperties) (start : Nat) (g p : Option Nat),
      (findQueueFamiliesGo d l start g p).is_complete =
        ((g.isSome || l.any queueFamilyGraphics) &&
         (p.isSome || (List.range l.length).any
            (fun k => d.surface_support.getD (start + k) false))) := by
  intro l
  induction l with
  | nil =>
    intro start g p
    simp [findQueueFamiliesGo, QueueFamilyIndices.is_complete]
  | cons qf rest ih =>
    intro start g p
    have hstep : findQueueFamiliesGo d (qf :: rest) start g p =
        (let g' := if queueFamilyGraphics qf then some start else g
         let p' := if d.surface_support.getD start false then some start else p
         if g'.isSome && p'.isSome then { graphics_family := g', present_family := p' }
         else findQueueFamiliesGo d rest (start + 1) g' p') := rfl
    rw [hstep]
    have ih' := ih
    simp only [QueueFamilyIndices.is_complete] at ih'
    by_cases hg : queueFamilyGraphics qf = true
    · by_cases hp : d.surface_support.getD start false = true
      · simp only [List.getD_eq_getElem?_getD] at hp
        simp [hg, hp, QueueFamilyIndices.is_complete, List.any_cons, List.length_cons,
          range_any_supp_head_true d.surface_support rest.length start hp]
      · have hp' : d.surface_support.getD start false = false := by
          revert hp; cases d.surface_support.getD start false <;> simp
        simp only [List.getD_eq_getElem?_getD] at hp'
        cases p with
        | some pv =>
          simp [hg, hp', QueueFamilyIndices.is_complete, List.any_cons]
        | none =>
          simp [hg, hp', QueueFamilyIndices.is_complete, List.any_cons, List.length_cons,
            ih', range_any_supp_head_false d.surface_support rest.length start hp']
    · have hg' : queueFamilyGraphics qf = false := by
        revert hg; cases queueFamilyGraphics qf <;> simp
      by_cases hp : d.surface_support.getD start false = true
      · simp only [List.getD_eq_getElem?_getD] at hp
        cases g with
        | some gv =>
          simp [hg', hp, QueueFamilyIndices.is_complete, List.any_cons, List.length_cons,
            range_any_supp_head_true d.surface_support rest.length start hp]
        | none =>
          simp [hg', hp, QueueFamilyIndices.is_complete, List.any_cons, List.length_cons,
            ih', range_any_supp_head_true d.surface_support rest.length start hp]
      · have hp' : d.surface_support.getD start false = false := by
          revert hp; cases d.surface_support.getD start false <;> simp
        simp only [List.getD_eq_getElem?_getD] at hp'
        by_cases hgp : g.isSome = true ∧ p.isSome = true
        · simp [hg', hp', hgp, hgp.1, hgp.2, QueueFamilyIndices.is_complete, List.any_cons,
            List.length_cons, range_any_supp_head_false d.surface_support rest.length start hp']
        · simp [hg', hp', hgp, QueueFamilyIndices.is_complete, List.any_cons,
            List.length_cons, ih',
            range_any_supp_head_false d.surface_support rest.length start hp']

theorem find_queue_families_complete_iff (d : PhysicalDeviceData) :
    (PhysicalDeviceBuilder.find_queue_families d).is_complete = true ↔
      ((∃ qf ∈ d.queue_families, queueFamilyGraphics qf = true) ∧
       (∃ k, k < d.queue_families.length ∧ d.surface_support.getD k false = true)) := by
  rw [PhysicalDeviceBuilder.find_queue_families, findQueueFamiliesGo_complete]
  simp [List.any_eq_true, List.mem_range]

theorem is_device_suitable_iff (required : List DeviceExtensions) (sa : Bool)
    (d : PhysicalDeviceData) :
    is_device_suitable required sa d = true ↔
      ((∀ e ∈ required, e ∈ d.available_extensions) ∧
       (sa = true → d.sampler_anisotropy = true) ∧
       d.formats ≠ [] ∧ d.present_modes ≠ []) := by
  unfold is_device_suitable check_device_extensions_support
  cases sa <;>
    simp [List.all_eq_true, List.isEmpty_iff] <;>
    tauto

theorem findSuitable_some (required : List DeviceExtensions) (sa : Bool) :
    ∀ (devices : List PhysicalDeviceData) (d : PhysicalDeviceData)
      (qfi : QueueFamilyIndices),
      findSuitable required sa devices = some (d, qfi) →
      qfi = PhysicalDeviceBuilder.find_queue_families d ∧
      deviceOk required sa d = true ∧
      ∃ i, i < devices.length ∧ devices.getD i dfltDevice = d ∧
        ∀ j, j < i → deviceOk required sa (devices.getD j dfltDevice) = false := by
  intro devices
  induction devices with
  | nil => intro d qfi h; simp [findSuitable] at h
  | cons d0 rest ih =>
    intro d qfi h
    rw [findSuitable] at h
    by_cases hok : (is_device_suitable required sa d0 &&
        (PhysicalDeviceBuilder.find_queue_families d0).is_complete) = true
    · rw [if_pos hok] at h
      obtain ⟨rfl, rfl⟩ : d0 = d ∧ PhysicalDeviceBuilder.find_queue_families d0 = qfi := by
        constructor <;> cases h <;> rfl
      exact ⟨rfl, hok, 0, by simp, rfl, by omega⟩
    · rw [if_neg hok] at h
      obtain ⟨hqfi, hdok, i, hi, hd, hmin⟩ := ih d qfi h
      refine ⟨hqfi, hdok, i + 1, by simpa using hi, by simpa using hd, ?_⟩
      intro j hj
      cases j with
      | zero =>
        simpa [deviceOk, List.getD_cons_zero] using
          Bool.not_eq_true _ ▸ (by simpa [deviceOk] using hok)
      | succ j' =>
        simpa [List.getD_cons_succ] using hmin j' (by omega)

theorem findSuitable_none (required : List DeviceExtensions) (sa : Bool) :
    ∀ devices : List PhysicalDeviceData,
      (∀ d ∈ devices, deviceOk required sa d = false) →
      findSuitable required sa devices = none := by
  intro devices
  induction devices with
  | nil => intro _; rfl
  | cons d0 rest ih =>
    intro h
    rw [findSuitable]
    have h0 : deviceOk required sa d0 = false := h d0 (by simp)
    rw [deviceOk] at h0
    rw [if_neg (by simp [h0])]
    exact ih (fun d hd => h d (List.mem_cons_of_mem d0 hd))

/-- C4: physical-device selection returns the first enumerated device that
supports every required extension, every required feature (sampler anisotropy
when requested), reports at least one surface format and one present mode, and
has a graphics-capable queue family and a surface-presentation-capable queue
family; when no enumerated device qualifies it fails with the
no-suitable-device error (`PhysicalDeviceCreationError`) and returns no device
at all. -/
theorem physical_device_selection :
    ∀ (required : List DeviceExtensions) (sa : Bool) (devices : List PhysicalDeviceData),
      (∀ (d : PhysicalDeviceData) (gq pq : Nat),
         PhysicalDeviceBuilder.build required sa devices = Except.ok (d, gq, pq) →
         ∃ i, i < devices.length ∧ devices.getD i dfltDevice = d ∧
           deviceOk required sa d = true ∧
           ∀ j, j < i → deviceOk required sa (devices.getD j dfltDevice) = false) ∧
      ((∀ d ∈ devices, deviceOk required sa d = false) →
         PhysicalDeviceBuilder.build required sa devices =
           Except.error (VulkanError.PhysicalDeviceCreationError
             "Cannot find suitable physical device")) ∧
      (∀ d : PhysicalDeviceData,
         deviceOk required sa d = true ↔
           ((∀ e ∈ required, e ∈ d.available_extensions) ∧
            (sa = true → d.sampler_anisotropy = true) ∧
            d.formats ≠ [] ∧ d.present_modes ≠ [] ∧
            (∃ qf ∈ d.queue_families, queueFamilyGraphics qf = true) ∧
            (∃ k, k < d.queue_families.length ∧ d.surface_support.getD k false = true))) := by
  intro required sa devices
  refine ⟨?_, ?_, ?_⟩
  · intro d gq pq h
    unfold PhysicalDeviceBuilder.build at h
    rcases hf : findSuitable required sa devices with _ | ⟨d', qfi⟩
    · rw [hf] at h; cases h
    · rw [hf] at h
      simp only [Except.ok.injEq, Prod.mk.injEq] at h
      obtain ⟨rfl, -, -⟩ := h
      obtain ⟨-, hdok, i, hi, hd, hmin⟩ := findSuitable_some required sa devices d' qfi hf
      exact ⟨i, hi, hd, hdok, hmin⟩
  · intro h
    unfold PhysicalDeviceBuilder.build
    rw [findSuitable_none required sa devices h]
  · intro d
    rw [deviceOk, Bool.and_eq_true, is_device_suitable_iff, find_queue_families_complete_iff]
    tauto

/-- A device lacking the required swapchain extension. -/
def deviceMissingExtension : PhysicalDeviceData :=
  { available_extensions := []
    sampler_anisotropy := true
    formats := [{ format := Format.b8g8r8a8Unorm, color_space := ColorSpace.srgbNonlinear }]
    present_modes := [PresentMode.fifo]
    queue_families := [{ queue_count := 1, queue_flags := 1 }]
    surface_support := [true] }

/-- A fully capable device. -/
def deviceCapable : PhysicalDeviceData :=
  { available_extensions := [DeviceExtensions.khrSwapchain]
    sampler_anisotropy := true
    formats := [{ format := Format.b8g8r8a8Unorm, color_space := ColorSpace.srgbNonlinear }]
    present_modes := [PresentMode.fifo]
    queue_families := [{ queue_count := 1, queue_flags := 1 }]
    surface_support := [true] }

/-- Witness for C4: with an unsuitable first device, selection lands on the
capable second device — index 1, with index 0 rejected. -/
theorem physical_device_selection_witness :
    ∃ i, i < ([deviceMissingExtension, deviceCapable] : List PhysicalDeviceData).length ∧
      [deviceMissingExtension, deviceCapable].getD i dfltDevice = deviceCapable ∧
      deviceOk [DeviceExtensions.khrSwapchain] true deviceCapable = true ∧
      ∀ j, j < i →
        deviceOk [DeviceExtensions.khrSwapchain] true
          ([deviceMissingExtension, deviceCapable].getD j dfltDevice) = false :=
  (physical_device_selection [DeviceExtensions.khrSwapchain] true
      [deviceMissingExtension, deviceCapable]).1 deviceCapable 0 0 rfl

/-! ## Claim C9: swapchain recreation ordering (code bug) -/

/-- The old swapchain of the recreation scenario. -/
def oldSwExample : Swapchain :=
  { handle := 10
    loader := some ()
    swapchain_format := { format := Format.b8g8r8a8Unorm, color_space := ColorSpace.srgbNonlinear }
    swapchain_extent := { width := 640, height := 480 }
    swapchain_images := [20, 21]
    image_views := [520, 521] }

/-- A rebuild configuration that recycles `oldSwExample`. -/
def builderRecreate : SwapchainBuilder :=
  { surface :=
      { handle := 1
        formats := [{ format := Format.b8g8r8a8Unorm, color_space := ColorSpace.srgbNonlinear }]
        present_modes := [PresentMode.mailbox]
        capabilities := { current_extent := { width := 800, height := 600 } } }
    physical_device := { graphics_queue_family := 0, present_queue_family := 0 }
    old_swapchain := some oldSwExample
    frames_count := 2
    width := 800
    height := 600 }

/-- C9 (code bug): the code violates the destroy-only-after-successful-creation
protocol the claim states.  At the failing input — recreation recycling
`oldSwExample` while the surface-formats query fails — the build destroys the
old swapchain completely (both image views and the swapchain handle, via the
builder's implicit drop with the loader still in place) even though no swapchain
creation was ever attempted: the whole trace is the failed query followed by the
three destroy events, with no `createSwapchain` event, and the query error is
returned.  And at the same configuration with every driver call succeeding —
and likewise when `create_swapchain` itself fails — the drop of the old
swapchain panics at the `unwrap` of its taken-out loader, so a recreation that
reaches `create_swapchain` never returns at all. -/
theorem swapchain_recreation_code_bug :
    builderRecreate.build (some VkResult.errorSurfaceLostKhr) none none
        (Except.ok 11) (Except.ok [30, 31]) =
      ([Event.getSurfaceFormats, Event.destroyImageView 520, Event.destroyImageView 521,
        Event.destroySwapchain 10],
       BuildOutcome.returns (Except.error
         (VulkanError.SurfaceError "ERROR_SURFACE_LOST_KHR"))) ∧
    (builderRecreate.build none none none (Except.ok 11) (Except.ok [30, 31])).2 =
      BuildOutcome.panics ∧
    (builderRecreate.build none none none
        (Except.error VkResult.errorDeviceLost) (Except.ok [30, 31])).2 =
      BuildOutcome.panics :=
  ⟨rfl, rfl, rfl⟩
